import Mathlib

/-!
A shallow embedding of the hospital queue-registration application
(`src/app.py`) and proofs about its queue-state model.

The database is modelled as an explicit state value holding the two
tables (`departments`, `patients`); every handler is a function from
the state (and its request fields) to a new state and a response.
SQLAlchemy queries are translated as follows:

* `Patient.query.filter_by(...)` / `.filter(...)` — `List.filter`;
* `.order_by(Patient.queue_number.desc()).first()` — a fold keeping
  the first row of maximal `queue_number`;
* `.count()` — `List.length` of the filtered list;
* `Patient.query.get(pid)` / `.first()` — `List.find?`;
* row insertion with an autoincrement primary key — appending to the
  list and bumping a `next_id` counter;
* an `UPDATE` of one row's status followed by `commit` — mapping over
  the list, replacing the row with the matching primary key.

Python's `str.strip()` is modelled by `strip` below (leading and
trailing whitespace removed), and the truthiness test
`if not patient_id:` on a JSON field by `truthy` below (absent field
or the number 0 are falsy).
-/

namespace HospitalQueue

/-- A row of the `departments` table (`class Department`). -/
structure Department where
  id : Nat
  name : String
  average_service_time : Int
  description : String
  deriving Repr, DecidableEq

/-- A row of the `patients` table (`class Patient`).  The `timestamp`
column is set from the wall clock and never read by any of the logic
under study, so it is omitted from the embedding. -/
structure Patient where
  id : Nat
  name : String
  department : String
  queue_number : Int
  status : String
  deriving Repr, DecidableEq

/-- The database state: the two tables plus the autoincrement counter
for the patients primary key. -/
structure DB where
  departments : List Department
  patients : List Patient
  next_id : Nat
  deriving Repr, DecidableEq

/-- The `{'level': ..., 'color': ...}` dictionaries returned by the
crowd-level classifiers. -/
structure CrowdLevel where
  level : String
  color : String
  deriving Repr, DecidableEq

/-- Python's `str.strip()`: remove leading and trailing whitespace.
Defined directly on the underlying character list (drop whitespace from
the front, then from the back) so that concrete instances reduce. -/
def strip (s : String) : String :=
  ⟨((s.data.dropWhile Char.isWhitespace).reverse.dropWhile Char.isWhitespace).reverse⟩

/-- The five default departments inserted by `init_db` (`app.py` lines 46-57). -/
def default_departments : List Department :=
  [ ⟨1, "Doctor Consultation", 15, "General physician consultation"⟩,
    ⟨2, "Pharmacy / Medicine Pickup", 5, "Collect prescribed medicines"⟩,
    ⟨3, "Blood Test / Laboratory", 10, "Blood tests and lab work"⟩,
    ⟨4, "Radiology / Scanning (X-ray, MRI, CT)", 20, "Medical imaging services"⟩,
    ⟨5, "Medical Report Collection", 3, "Collect test reports and documents"⟩ ]

/-- `init_db` (`app.py` lines 40-63): seed the department catalog when
it is empty, otherwise leave the state untouched.  (`db.create_all()`
is schema glue with no effect on the modelled state.) -/
def init_db (db : DB) : DB :=
  if (db.departments.length == 0) = true then
    { db with departments := default_departments }
  else
    db

/-- The rows of `Patient.query.filter_by(department=d, status='waiting')`. -/
def waiting_in (db : DB) (d : String) : List Patient :=
  db.patients.filter (fun p => p.department == d && p.status == "waiting")

/-- `.order_by(Patient.queue_number.desc()).first()`: the first row of
maximal `queue_number`, or `none` for an empty result set. -/
def first_by_queue_desc : List Patient → Option Patient
  | [] => none
  | p :: ps =>
    match first_by_queue_desc ps with
    | none => some p
    | some q => if q.queue_number > p.queue_number then some q else some p

/-- `get_next_queue_number` (`app.py` lines 66-75). -/
def get_next_queue_number (db : DB) (department_name : String) : Int :=
  match first_by_queue_desc (waiting_in db department_name) with
  | some last_patient => last_patient.queue_number + 1
  | none => 1

/-- `get_queue_position` (`app.py` lines 77-90). -/
def get_queue_position (db : DB) (patient_id : Nat) : Option Int :=
  match db.patients.find? (fun p => p.id == patient_id) with
  | none => none
  | some patient =>
    if (patient.status == "waiting") = true then
      some (((db.patients.filter (fun p =>
        p.department == patient.department && p.status == "waiting" &&
          decide (p.queue_number < patient.queue_number))).length : Int) + 1)
    else
      none

/-- `calculate_waiting_time` (`app.py` lines 92-99). -/
def calculate_waiting_time (db : DB) (department_name : String) (position : Int) : Int :=
  match db.departments.find? (fun d => d.name == department_name) with
  | none => 0
  | some dept => (position - 1) * dept.average_service_time

/-- `get_crowd_level` (`app.py` lines 101-108). -/
def get_crowd_level (count : Nat) : CrowdLevel :=
  if count ≤ 10 then ⟨"Low", "success"⟩
  else if count ≤ 25 then ⟨"Moderate", "warning"⟩
  else ⟨"High", "danger"⟩

/-- `get_hospital_crowd_level` (`app.py` lines 110-117). -/
def get_hospital_crowd_level (total_count : Nat) : CrowdLevel :=
  if total_count ≤ 40 then ⟨"Low", "success"⟩
  else if total_count ≤ 80 then ⟨"Moderate", "warning"⟩
  else ⟨"High", "danger"⟩

/-- The JSON body of a successful `POST /register`, or the error
response with its HTTP code. -/
inductive RegisterResponse where
  | err (code : Nat) (msg : String)
  | ok (patient_id : Nat) (queue_number : Int) (position : Option Int)
       (waiting_time : Int) (crowd_level : CrowdLevel)
  deriving Repr, DecidableEq

/-- The `POST /register` handler (`app.py` lines 132-177). -/
def register (db : DB) (form_name form_department : String) : DB × RegisterResponse :=
  let name := strip form_name
  let department := strip form_department
  if (name == "" || department == "") = true then
    (db, .err 400 "Name and department are required")
  else
    match db.departments.find? (fun d => d.name == department) with
    | none => (db, .err 400 "Invalid department")
    | some _dept =>
      let queue_number := get_next_queue_number db department
      let patient : Patient :=
        { id := db.next_id, name := name, department := department,
          queue_number := queue_number, status := "waiting" }
      let db' : DB :=
        { db with patients := db.patients ++ [patient], next_id := db.next_id + 1 }
      let position := get_queue_position db' patient.id
      let waiting_time := calculate_waiting_time db' department (position.getD 0)
      let dept_queue_count := (waiting_in db' department).length
      (db', .ok patient.id queue_number position waiting_time
        (get_crowd_level dept_queue_count))

/-- The JSON body of the `leave_queue` / `mark_served` endpoints. -/
inductive ApiResponse where
  | err (code : Nat) (msg : String)
  | ok (msg : String)
  deriving Repr, DecidableEq

/-- Python's truthiness test `if not patient_id:` on a JSON field:
an absent field (`None`) and the number 0 are falsy. -/
def truthy : Option Nat → Bool
  | none => false
  | some n => n != 0

/-- `patient.status = s; db.session.commit()`: replace the status of
the row with primary key `pid`. -/
def set_status (ps : List Patient) (pid : Nat) (st : String) : List Patient :=
  ps.map (fun p => if (p.id == pid) = true then { p with status := st } else p)

/-- The `POST /api/leave_queue` handler (`app.py` lines 286-308). -/
def leave_queue (db : DB) (patient_id : Option Nat) : DB × ApiResponse :=
  if truthy patient_id = false then
    (db, .err 400 "Patient ID required")
  else
    match db.patients.find? (fun p => p.id == patient_id.getD 0) with
    | none => (db, .err 404 "Patient not found")
    | some patient =>
      if (patient.status != "waiting") = true then
        (db, .err 400 "Patient is not in queue")
      else
        ({ db with patients := set_status db.patients patient.id "cancelled" },
         .ok (patient.name ++ " has left the queue for " ++ patient.department))

/-- The `POST /api/mark_served` handler (`app.py` lines 310-325).
Note: unlike `leave_queue`, it performs no status check before
setting the row's status to `"served"`. -/
def mark_served (db : DB) (patient_id : Option Nat) : DB × ApiResponse :=
  if truthy patient_id = false then
    (db, .err 400 "Patient ID required")
  else
    match db.patients.find? (fun p => p.id == patient_id.getD 0) with
    | none => (db, .err 404 "Patient not found")
    | some patient =>
      ({ db with patients := set_status db.patients patient.id "served" },
       .ok ("Patient " ++ patient.name ++ " marked as served"))

/-- The JSON body of `GET /api/hospital_overview`. -/
structure HospitalOverview where
  total_waiting : Nat
  total_served : Nat
  total_patients : Nat
  crowd_level : String
  crowd_color : String
  deriving Repr, DecidableEq

/-- The `GET /api/hospital_overview` handler (`app.py` lines 239-254). -/
def hospital_overview (db : DB) : HospitalOverview :=
  let total_waiting := (db.patients.filter (fun p => p.status == "waiting")).length
  let total_served := (db.patients.filter (fun p => p.status == "served")).length
  let hospital_crowd := get_hospital_crowd_level total_waiting
  { total_waiting := total_waiting, total_served := total_served,
    total_patients := total_waiting + total_served,
    crowd_level := hospital_crowd.level, crowd_color := hospital_crowd.color }

/-- A fresh database before `init_db` runs. -/
def empty_db : DB := ⟨[], [], 1⟩

/-- The database right after startup: `init_db` on a fresh store. -/
def seeded : DB := init_db empty_db

/-- The department used by the spec's worked scenarios. -/
def pharm : String := "Pharmacy / Medicine Pickup"

/-- Scenario state: Alice registered to the pharmacy department. -/
def db1 : DB := (register seeded "Alice" pharm).1

/-- Scenario state: Alice registered, then cancelled via `leave_queue`. -/
def db2 : DB := (leave_queue db1 (some 1)).1

/-- Scenario state: Bob registered after Alice's cancellation. -/
def db3 : DB := (register db2 "Bob" pharm).1

/-- A sequence of `POST /register` submissions to a fixed department,
threading the database state. -/
def register_seq (db : DB) (names : List String) (d : String) : DB :=
  names.foldl (fun s n => (register s n d).1) db

theorem first_by_queue_desc_cons (a : Patient) (l : List Patient) :
    first_by_queue_desc (a :: l) =
      match first_by_queue_desc l with
      | none => some a
      | some q => if q.queue_number > a.queue_number then some q else some a := rfl

theorem get_next_queue_number_eq (db : DB) (d : String) :
    get_next_queue_number db d =
      match first_by_queue_desc (waiting_in db d) with
      | some p => p.queue_number + 1
      | none => 1 := rfl

theorem first_by_queue_desc_eq_none {l : List Patient} :
    first_by_queue_desc l = none ↔ l = [] := by
  cases l with
  | nil => simp [first_by_queue_desc]
  | cons p ps =>
    rw [first_by_queue_desc_cons]
    cases h : first_by_queue_desc ps with
    | none => simp
    | some q =>
      simp only []
      constructor
      · intro hcontra
        split at hcontra <;> simp at hcontra
      · intro hcontra
        simp at hcontra

theorem first_by_queue_desc_mem :
    ∀ {l : List Patient} {p : Patient}, first_by_queue_desc l = some p → p ∈ l := by
  intro l
  induction l with
  | nil => intro p h; simp [first_by_queue_desc] at h
  | cons a l ih =>
    intro p h
    rw [first_by_queue_desc_cons] at h
    cases hf : first_by_queue_desc l with
    | none =>
      rw [hf] at h
      simp only [Option.some.injEq] at h
      simp [h]
    | some q =>
      rw [hf] at h
      simp only [] at h
      by_cases hc : q.queue_number > a.queue_number
      · rw [if_pos hc] at h
        simp only [Option.some.injEq] at h
        exact List.mem_cons_of_mem a (h ▸ ih hf)
      · rw [if_neg hc] at h
        simp only [Option.some.injEq] at h
        simp [h]

theorem first_by_queue_desc_le :
    ∀ {l : List Patient} {p : Patient}, first_by_queue_desc l = some p →
      ∀ q ∈ l, q.queue_number ≤ p.queue_number := by
  intro l
  induction l with
  | nil => intro p _ q hq; simp at hq
  | cons a l ih =>
    intro p h q hq
    rw [first_by_queue_desc_cons] at h
    cases hf : first_by_queue_desc l with
    | none =>
      rw [hf] at h
      simp only [Option.some.injEq] at h
      have hl : l = [] := first_by_queue_desc_eq_none.mp hf
      subst hl
      simp at hq
      simp [hq, ← h]
    | some m =>
      rw [hf] at h
      simp only [] at h
      rcases List.mem_cons.mp hq with hqa | hql
      · subst hqa
        by_cases hc : m.queue_number > q.queue_number
        · rw [if_pos hc] at h
          simp only [Option.some.injEq] at h
          subst h
          omega
        · rw [if_neg hc] at h
          simp only [Option.some.injEq] at h
          simp [h]
      · have hm := ih hf q hql
        by_cases hc : m.queue_number > a.queue_number
        · rw [if_pos hc] at h
          simp only [Option.some.injEq] at h
          subst h
          exact hm
        · rw [if_neg hc] at h
          simp only [Option.some.injEq] at h
          subst h
          omega

theorem waiting_lt_next (db : DB) (d : String) :
    ∀ p ∈ waiting_in db d, p.queue_number < get_next_queue_number db d := by
  intro p hp
  cases hf : first_by_queue_desc (waiting_in db d) with
  | none =>
    rw [first_by_queue_desc_eq_none.mp hf] at hp
    simp at hp
  | some m =>
    have h1 := first_by_queue_desc_le hf p hp
    rw [get_next_queue_number_eq, hf]
    exact Int.lt_add_one_iff.mpr h1

theorem first_by_queue_desc_append_max {l : List Patient} {p : Patient}
    (h : ∀ q ∈ l, q.queue_number < p.queue_number) :
    first_by_queue_desc (l ++ [p]) = some p := by
  induction l with
  | nil => simp [first_by_queue_desc]
  | cons a l ih =>
    have ha := h a (List.mem_cons_self a l)
    have hrest := ih (fun q hq => h q (List.mem_cons_of_mem a hq))
    rw [List.cons_append, first_by_queue_desc_cons, hrest]
    simp only []
    rw [if_pos ha]

theorem register_departments (db : DB) (n d : String) :
    (register db n d).1.departments = db.departments := by
  simp only [register]
  split
  · rfl
  · split <;> rfl

theorem register_success (db : DB) (n d : String) (hn : ¬ strip n = "")
    (hd0 : ¬ strip d = "") {dept : Department}
    (hd : db.departments.find? (fun x => x.name == strip d) = some dept) :
    (register db n d).1 =
      { db with
        patients := db.patients ++
          [⟨db.next_id, strip n, strip d, get_next_queue_number db (strip d), "waiting"⟩],
        next_id := db.next_id + 1 } := by
  have hcond : (strip n == "" || strip d == "") = false := by
    simp [hn, hd0]
  simp only [register, hcond, Bool.false_eq_true, if_false, hd]

theorem waiting_in_append (db : DB) (p : Patient) (d : String) (nid : Nat)
    (hp : (p.department == d && p.status == "waiting") = true) :
    waiting_in { db with patients := db.patients ++ [p], next_id := nid } d =
      waiting_in db d ++ [p] := by
  simp [waiting_in, List.filter_append, hp]

theorem next_after_register (db : DB) (n d : String) (hn : ¬ strip n = "")
    (hd0 : ¬ d = "") (hdd : strip d = d)
    {dept : Department}
    (hd : db.departments.find? (fun x => x.name == d) = some dept) :
    get_next_queue_number (register db n d).1 d = get_next_queue_number db d + 1 := by
  have hd' : db.departments.find? (fun x => x.name == strip d) = some dept := by
    rw [hdd]; exact hd
  have hd0' : ¬ strip d = "" := by rw [hdd]; exact hd0
  rw [register_success db n d hn hd0' hd']
  set p : Patient := ⟨db.next_id, strip n, strip d, get_next_queue_number db (strip d), "waiting"⟩ with hpdef
  have hp : (p.department == d && p.status == "waiting") = true := by
    simp [hpdef, hdd]
  have hw : waiting_in { db with patients := db.patients ++ [p], next_id := db.next_id + 1 } d =
      waiting_in db d ++ [p] := waiting_in_append db p d (db.next_id + 1) hp
  rw [get_next_queue_number_eq, hw,
    first_by_queue_desc_append_max (fun q hq => by
      have := waiting_lt_next db d q hq
      simpa [hpdef, hdd] using this)]
  simp [hpdef, hdd]

theorem register_seq_nil (db : DB) (d : String) : register_seq db [] d = db := rfl

theorem register_seq_cons (db : DB) (n : String) (ns : List String) (d : String) :
    register_seq db (n :: ns) d = register_seq (register db n d).1 ns d := rfl

theorem register_seq_next (d : String) (hdd : strip d = d) (hd0 : ¬ d = "") :
    ∀ (names : List String) (db : DB), (∀ n ∈ names, ¬ strip n = "") →
      (db.departments.find? (fun x => x.name == d)).isSome = true →
      get_next_queue_number (register_seq db names d) d =
        get_next_queue_number db d + names.length := by
  intro names
  induction names with
  | nil => intro db _ _; simp [register_seq_nil]
  | cons n ns ih =>
    intro db hns hd
    obtain ⟨dept, hdept⟩ := Option.isSome_iff_exists.mp hd
    rw [register_seq_cons]
    have hdep2 : ((register db n d).1.departments.find? (fun x => x.name == d)).isSome = true := by
      rw [register_departments]
      exact hd
    rw [ih ((register db n d).1) (fun m hm => hns m (List.mem_cons_of_mem n hm)) hdep2]
    rw [next_after_register db n d (hns n (List.mem_cons_self n ns)) hd0 hdd hdept]
    simp only [List.length_cons]
    push_cast
    ring

theorem next_of_waiting_nil (db : DB) (d : String) (h : waiting_in db d = []) :
    get_next_queue_number db d = 1 := by
  rw [get_next_queue_number_eq, h]
  rfl

/-- Claim C3: for every department `D`, after `N` successful registrations
to `D` with no cancellations, starting from an empty patient table,
`get_next_queue_number D` returns `N + 1`; and in general
`get_next_queue_number D` equals the maximum `queue_number` among the
waiting records of `D` plus 1, or 1 if no waiting record exists. -/
theorem nextQueueNumber_correct :
    (∀ (db : DB) (d : String) (names : List String),
        db.patients = [] → strip d = d → ¬ d = "" →
        (∀ n ∈ names, ¬ strip n = "") →
        (db.departments.find? (fun x => x.name == d)).isSome = true →
        get_next_queue_number (register_seq db names d) d = (names.length : Int) + 1) ∧
    (∀ (db : DB) (d : String), waiting_in db d = [] → get_next_queue_number db d = 1) ∧
    (∀ (db : DB) (d : String) (m : Int),
        m ∈ (waiting_in db d).map Patient.queue_number →
        (∀ q ∈ (waiting_in db d).map Patient.queue_number, q ≤ m) →
        get_next_queue_number db d = m + 1) := by
  refine ⟨?_, ?_, ?_⟩
  · intro db d names hemp hdd hd0 hns hd
    rw [register_seq_next d hdd hd0 names db hns hd]
    have hw : waiting_in db d = [] := by simp [waiting_in, hemp]
    rw [next_of_waiting_nil db d hw]
    ring
  · exact next_of_waiting_nil
  · intro db d m hm hub
    cases hf : first_by_queue_desc (waiting_in db d) with
    | none =>
      rw [first_by_queue_desc_eq_none.mp hf] at hm
      simp at hm
    | some p =>
      have hpmem := first_by_queue_desc_mem hf
      have hple : p.queue_number ≤ m :=
        hub _ (List.mem_map_of_mem Patient.queue_number hpmem)
      obtain ⟨q, hq, hqm⟩ := List.mem_map.mp hm
      have hmle : m ≤ p.queue_number := hqm ▸ first_by_queue_desc_le hf q hq
      have hpm : p.queue_number = m := le_antisymm hple hmle
      rw [get_next_queue_number_eq, hf]
      show p.queue_number + 1 = m + 1
      rw [hpm]

/-- Claim C3 witness: two registrations to "Doctor Consultation" from the
freshly seeded store make the next queue number 3; the seeded store with
no patients yields 1; with a single waiting record of queue number 1 the
next number is 2. -/
theorem nextQueueNumber_correct_witness :
    get_next_queue_number
        (register_seq seeded ["Alice", "Bob"] "Doctor Consultation")
        "Doctor Consultation" = 3 ∧
    get_next_queue_number seeded pharm = 1 ∧
    get_next_queue_number db1 pharm = 2 := by
  refine ⟨?_, ?_, ?_⟩
  · have h := nextQueueNumber_correct.1 seeded "Doctor Consultation" ["Alice", "Bob"]
      rfl (by decide) (by decide) (by decide) (by decide)
    simpa using h
  · exact nextQueueNumber_correct.2.1 seeded pharm (by decide)
  · have h := nextQueueNumber_correct.2.2 db1 pharm 1 (by decide) (by decide)
    simpa using h

/-- Claim C5: the estimated wait for a department and position is
`(position - 1) * average_service_time`; position 1 always yields 0;
an unknown department name yields 0. -/
theorem estimatedWaitMinutes_correct :
    (∀ (db : DB) (d : String) (p : Int) (dept : Department),
        db.departments.find? (fun x => x.name == d) = some dept →
        calculate_waiting_time db d p = (p - 1) * dept.average_service_time ∧
        calculate_waiting_time db d 1 = 0) ∧
    (∀ (db : DB) (d : String) (p : Int),
        (∀ dept ∈ db.departments, dept.name ≠ d) →
        calculate_waiting_time db d p = 0) := by
  constructor
  · intro db d p dept hfind
    unfold calculate_waiting_time
    rw [hfind]
    constructor
    · rfl
    · show ((1 : Int) - 1) * dept.average_service_time = 0
      ring
  · intro db d p hnone
    have hfind : db.departments.find? (fun x => x.name == d) = none := by
      rw [List.find?_eq_none]
      intro dept hmem
      simpa using hnone dept hmem
    unfold calculate_waiting_time
    rw [hfind]

/-- Claim C5 witness: in the seeded store, position 3 in the pharmacy
department (service time 5) waits 10 minutes, position 1 waits 0, and an
unknown department yields 0. -/
theorem estimatedWaitMinutes_correct_witness :
    calculate_waiting_time seeded pharm 3 = 10 ∧
    calculate_waiting_time seeded pharm 1 = 0 ∧
    calculate_waiting_time seeded "No Such Department" 7 = 0 := by
  refine ⟨?_, ?_, ?_⟩
  · have h := (estimatedWaitMinutes_correct.1 seeded pharm 3
      ⟨2, "Pharmacy / Medicine Pickup", 5, "Collect prescribed medicines"⟩ (by decide)).1
    simpa using h
  · exact (estimatedWaitMinutes_correct.1 seeded pharm 1
      ⟨2, "Pharmacy / Medicine Pickup", 5, "Collect prescribed medicines"⟩ (by decide)).2
  · exact estimatedWaitMinutes_correct.2 seeded "No Such Department" 7 (by decide)

/-- Claim C6: department crowd level is Low for counts up to 10, Moderate
for 11 to 25, High from 26 on; the hospital-wide level is Low up to 40,
Moderate for 41 to 80, High from 81 on; with the fixed color tokens
success, warning and danger respectively. -/
theorem crowdLevel_correct (c : Nat) :
    (c ≤ 10 → get_crowd_level c = ⟨"Low", "success"⟩) ∧
    (11 ≤ c → c ≤ 25 → get_crowd_level c = ⟨"Moderate", "warning"⟩) ∧
    (26 ≤ c → get_crowd_level c = ⟨"High", "danger"⟩) ∧
    (c ≤ 40 → get_hospital_crowd_level c = ⟨"Low", "success"⟩) ∧
    (41 ≤ c → c ≤ 80 → get_hospital_crowd_level c = ⟨"Moderate", "warning"⟩) ∧
    (81 ≤ c → get_hospital_crowd_level c = ⟨"High", "danger"⟩) := by
  unfold get_crowd_level get_hospital_crowd_level
  refine ⟨?_, ?_, ?_, ?_, ?_, ?_⟩ <;> intros <;> split_ifs <;> first | rfl | omega

/-- Claim C6 witness: the classifiers at the boundary counts named by the
spec. -/
theorem crowdLevel_correct_witness :
    get_crowd_level 10 = ⟨"Low", "success"⟩ ∧
    get_crowd_level 11 = ⟨"Moderate", "warning"⟩ ∧
    get_crowd_level 25 = ⟨"Moderate", "warning"⟩ ∧
    get_crowd_level 26 = ⟨"High", "danger"⟩ ∧
    get_hospital_crowd_level 40 = ⟨"Low", "success"⟩ ∧
    get_hospital_crowd_level 41 = ⟨"Moderate", "warning"⟩ ∧
    get_hospital_crowd_level 80 = ⟨"Moderate", "warning"⟩ ∧
    get_hospital_crowd_level 81 = ⟨"High", "danger"⟩ :=
  ⟨(crowdLevel_correct 10).1 (by decide),
   (crowdLevel_correct 11).2.1 (by decide) (by decide),
   (crowdLevel_correct 25).2.1 (by decide) (by decide),
   (crowdLevel_correct 26).2.2.1 (by decide),
   (crowdLevel_correct 40).2.2.2.1 (by decide),
   (crowdLevel_correct 41).2.2.2.2.1 (by decide) (by decide),
   (crowdLevel_correct 80).2.2.2.2.1 (by decide) (by decide),
   (crowdLevel_correct 81).2.2.2.2.2 (by decide)⟩

/-- Claim C7: the department-catalog seed routine leaves a non-empty
catalog untouched, and running it twice from an empty catalog yields
exactly the five default departments with no duplicate names. -/
theorem init_db_idempotent :
    (∀ db : DB, db.departments ≠ [] → init_db db = db) ∧
    (init_db (init_db empty_db)).departments = default_departments ∧
    default_departments.length = 5 ∧
    ((init_db (init_db empty_db)).departments.map Department.name).Nodup := by
  refine ⟨?_, rfl, rfl, by decide⟩
  intro db h
  unfold init_db
  rw [if_neg]
  simp [h]

/-- Claim C7 witness: running the seed routine on the already-seeded
store changes nothing. -/
theorem init_db_idempotent_witness : init_db seeded = seeded :=
  init_db_idempotent.1 seeded (by decide)

/-- Claim C4: `get_queue_position` returns `none` when no record with the
given id is a waiting record; when the record lookup finds a waiting
record, it returns the count of waiting same-department records with a
strictly smaller queue number, plus 1. -/
theorem positionOf_correct (db : DB) (pid : Nat) :
    ((∀ p ∈ db.patients, p.id = pid → p.status ≠ "waiting") →
      get_queue_position db pid = none) ∧
    (∀ p, db.patients.find? (fun q => q.id == pid) = some p → p.status = "waiting" →
      get_queue_position db pid =
        some (((db.patients.filter (fun q =>
          q.department == p.department && q.status == "waiting" &&
            decide (q.queue_number < p.queue_number))).length : Int) + 1)) := by
  constructor
  · intro h
    cases hf : db.patients.find? (fun p => p.id == pid) with
    | none => simp [get_queue_position, hf]
    | some pr =>
      have hmem := List.mem_of_find?_eq_some hf
      have hid : pr.id = pid := by simpa using List.find?_some hf
      have hst : pr.status ≠ "waiting" := h pr hmem hid
      simp [get_queue_position, hf, hst]
  · intro p hf hst
    simp [get_queue_position, hf, hst]

/-- Claim C4 witness: positions in the scenario states — cancelled Alice
has no position in `db2`, waiting Bob in `db3` is first in line. -/
theorem positionOf_correct_witness :
    get_queue_position db2 1 = none ∧
    get_queue_position db3 2 = some 1 := by
  constructor
  · exact (positionOf_correct db2 1).1 (by decide)
  · have h := (positionOf_correct db3 2).2 ⟨2, "Bob", pharm, 1, "waiting"⟩
      (by decide) (by decide)
    simpa using h

/-- Claim C8: a registration whose (stripped) name or department is empty,
or whose department matches no catalog entry, yields a 400 error and
leaves the database unchanged. -/
theorem register_validation (db : DB) (n d : String) :
    (strip n = "" ∨ strip d = "" ∨ (∀ dept ∈ db.departments, dept.name ≠ strip d)) →
    (register db n d).1 = db ∧ ∃ msg, (register db n d).2 = .err 400 msg := by
  intro h
  by_cases hc : (strip n == "" || strip d == "") = true
  · exact ⟨by simp [register, hc], "Name and department are required",
      by simp [register, hc]⟩
  · have hboth : ¬ strip n = "" ∧ ¬ strip d = "" := by
      simpa using hc
    have hfind : db.departments.find? (fun x => x.name == strip d) = none := by
      rw [List.find?_eq_none]
      intro dept hmem
      rcases h with h1 | h2 | h3
      · exact absurd h1 hboth.1
      · exact absurd h2 hboth.2
      · simpa using h3 dept hmem
    exact ⟨by simp [register, hc, hfind], "Invalid department",
      by simp [register, hc, hfind]⟩

/-- Claim C8 witness: registering to an unknown department from the seeded
store fails with a 400 error and changes nothing. -/
theorem register_validation_witness :
    (register seeded "Alice" "Radiology").1 = seeded ∧
    ∃ msg, (register seeded "Alice" "Radiology").2 = .err 400 msg :=
  register_validation seeded "Alice" "Radiology" (Or.inr (Or.inr (by decide)))

/-- Claim C9: the register handler strips surrounding whitespace before
validation — a whitespace-only name is rejected with a 400 error, and a
successfully stored record carries the stripped name and department. -/
theorem register_strips_whitespace (db : DB) (n d : String) :
    (strip n = "" →
      (register db n d).1 = db ∧
      (register db n d).2 = .err 400 "Name and department are required") ∧
    (∀ pid q pos w cl, (register db n d).2 = .ok pid q pos w cl →
      ∃ p, (register db n d).1.patients = db.patients ++ [p] ∧
        p.name = strip n ∧ p.department = strip d) := by
  constructor
  · intro hn
    have hc : (strip n == "" || strip d == "") = true := by simp [hn]
    constructor <;> simp [register, hc]
  · intro pid q pos w cl hok
    by_cases hc : (strip n == "" || strip d == "") = true
    · simp [register, hc] at hok
    · cases hfind : db.departments.find? (fun x => x.name == strip d) with
      | none => simp [register, hc, hfind] at hok
      | some dept =>
        exact ⟨⟨db.next_id, strip n, strip d,
          get_next_queue_number db (strip d), "waiting"⟩,
          by simp [register, hc, hfind], rfl, rfl⟩

/-- Claim C9 witness: a whitespace-only name is rejected, and registering
" Alice " stores the stripped name "Alice". -/
theorem register_strips_whitespace_witness :
    ((register seeded "   " pharm).1 = seeded ∧
     (register seeded "   " pharm).2 = .err 400 "Name and department are required") ∧
    ∃ p, (register seeded " Alice " pharm).1.patients = seeded.patients ++ [p] ∧
      p.name = strip " Alice " ∧ p.department = strip pharm :=
  ⟨(register_strips_whitespace seeded "   " pharm).1 (by decide),
   (register_strips_whitespace seeded " Alice " pharm).2 1 1 (some 1) 0
     ⟨"Low", "success"⟩ (by decide)⟩

theorem length_filter_add_of_disjoint (l : List Patient) (p q : Patient → Bool)
    (h : ∀ x, ¬(p x = true ∧ q x = true)) :
    (l.filter p).length + (l.filter q).length =
      (l.filter (fun x => p x || q x)).length := by
  induction l with
  | nil => rfl
  | cons a l ih =>
    cases hp : p a with
    | true =>
      have hq : q a = false := by
        cases hqv : q a
        · rfl
        · exact absurd ⟨hp, hqv⟩ (h a)
      simp [List.filter_cons, hp, hq]
      omega
    | false =>
      cases hq : q a with
      | true =>
        simp [List.filter_cons, hp, hq]
        omega
      | false =>
        simp [List.filter_cons, hp, hq]
        omega

/-- Claim C10: the hospital overview reports `total_patients` as exactly
`total_waiting + total_served` — equivalently, the count of records whose
status is waiting or served — and appending a cancelled record changes no
field of the overview. -/
theorem hospital_overview_correct (db : DB) (p : Patient) :
    (hospital_overview db).total_patients =
      (hospital_overview db).total_waiting + (hospital_overview db).total_served ∧
    (hospital_overview db).total_patients =
      (db.patients.filter (fun q => q.status == "waiting" || q.status == "served")).length ∧
    (p.status = "cancelled" →
      hospital_overview { db with patients := db.patients ++ [p] } =
        hospital_overview db) := by
  refine ⟨rfl, ?_, ?_⟩
  · exact length_filter_add_of_disjoint db.patients _ _ (fun x => by
      rintro ⟨h1, h2⟩
      simp only [beq_iff_eq] at h1 h2
      rw [h1] at h2
      exact absurd h2 (by decide))
  · intro hc
    have hw : (p.status == "waiting") = false := by simp [hc]
    have hs : (p.status == "served") = false := by simp [hc]
    simp [hospital_overview, List.filter_append, hw, hs]

/-- Claim C10 witness: appending a cancelled record to the scenario state
leaves the hospital overview unchanged. -/
theorem hospital_overview_correct_witness :
    hospital_overview
        { db1 with patients := db1.patients ++ [⟨5, "Eve", pharm, 9, "cancelled"⟩] } =
      hospital_overview db1 :=
  (hospital_overview_correct db1 ⟨5, "Eve", pharm, 9, "cancelled"⟩).2.2 rfl

/-- Claim C1 counterexample: in the scenario state `db2` Alice's record is
cancelled, yet `mark_served` on it succeeds and overwrites the status with
"served" — it does not fail with an invalid-state error and does not leave
the record unchanged. -/
theorem mark_served_counterexample :
    db2.patients = [⟨1, "Alice", pharm, 1, "cancelled"⟩] ∧
    (mark_served db2 (some 1)).2 = .ok "Patient Alice marked as served" ∧
    (mark_served db2 (some 1)).1.patients = [⟨1, "Alice", pharm, 1, "served"⟩] :=
  ⟨rfl, rfl, rfl⟩

/-- Claim C1 amended: `mark_served` performs no status check — for any
existing record (whatever its status, e.g. cancelled) it reports success
and sets the record's status to "served"; only a missing/zero id (400) or
an unknown id (404) fail. -/
theorem mark_served_amended (db : DB) (pid : Nat) (patient : Patient)
    (hpid : pid ≠ 0)
    (hfind : db.patients.find? (fun p => p.id == pid) = some patient) :
    (mark_served db (some pid)).2 =
      .ok ("Patient " ++ patient.name ++ " marked as served") ∧
    (mark_served db (some pid)).1.patients = set_status db.patients pid "served" ∧
    ∀ p ∈ (mark_served db (some pid)).1.patients, p.id = pid → p.status = "served" := by
  have ht : truthy (some pid) = true := by simp [truthy, hpid]
  have hid : patient.id = pid := by simpa using List.find?_some hfind
  have hpat : (mark_served db (some pid)).1.patients =
      set_status db.patients pid "served" := by
    simp [mark_served, ht, hfind, hid]
  refine ⟨by simp [mark_served, ht, hfind], hpat, ?_⟩
  intro p hp hpid2
  rw [hpat] at hp
  simp only [set_status] at hp
  obtain ⟨q, hq, hqe⟩ := List.mem_map.mp hp
  by_cases hco : (q.id == pid) = true
  · rw [if_pos hco] at hqe
    rw [← hqe]
  · rw [if_neg hco] at hqe
    subst hqe
    exact absurd hpid2 (by simpa using hco)

/-- Claim C1 amended witness: marking cancelled Alice as served succeeds
and her stored status becomes "served". -/
theorem mark_served_amended_witness :
    (mark_served db2 (some 1)).2 = .ok ("Patient " ++ "Alice" ++ " marked as served") ∧
    (mark_served db2 (some 1)).1.patients = set_status db2.patients 1 "served" ∧
    ∀ p ∈ (mark_served db2 (some 1)).1.patients, p.id = 1 → p.status = "served" :=
  mark_served_amended db2 1 ⟨1, "Alice", pharm, 1, "cancelled"⟩ (by decide) (by decide)

/-- Claim C2 counterexample: Alice registers to the pharmacy department and
receives queue number 1, then cancels; the next registration (Bob) to the
same department is assigned the same queue number 1 — a cancelled record's
queue number is reused. -/
theorem queueNumber_reuse_counterexample :
    db2.patients = [⟨1, "Alice", pharm, 1, "cancelled"⟩] ∧
    get_next_queue_number db2 pharm = 1 ∧
    (register db2 "Bob" pharm).1.patients =
      [⟨1, "Alice", pharm, 1, "cancelled"⟩, ⟨2, "Bob", pharm, 1, "waiting"⟩] :=
  ⟨rfl, rfl, rfl⟩

/-- Claim C2 amended: a queue number held by a record that is still
waiting is never reassigned — every waiting record's queue number is
strictly below the next number handed out for its department; the number
of a served or cancelled record, however, can be reused (as the
counterexample shows). -/
theorem queueNumber_waiting_not_reused (db : DB) (d : String) (p : Patient)
    (hp : p ∈ waiting_in db d) :
    p.queue_number < get_next_queue_number db d :=
  waiting_lt_next db d p hp

/-- Claim C2 amended witness: Bob is waiting with queue number 1 in `db3`
and the next number handed out for the pharmacy department is larger. -/
theorem queueNumber_waiting_not_reused_witness :
    (⟨2, "Bob", pharm, 1, "waiting"⟩ : Patient) ∈ waiting_in db3 pharm ∧
    (1 : Int) < get_next_queue_number db3 pharm :=
  ⟨by decide,
   queueNumber_waiting_not_reused db3 pharm ⟨2, "Bob", pharm, 1, "waiting"⟩ (by decide)⟩

end HospitalQueue
